import Mathlib

/-!
Verification of the actor-critic agent in `networks/actor_critic.py`.

The development shallowly embeds the return-estimation routines, the
`Policy.forward` pass, and the `Agent` orchestration (buffering, the
`update_policy` step, and `get_action`).  Tensors are modelled as lists of
scalars (rationals where claims are evaluated concretely, reals where the
loss computation needs `sqrt`), and autograd scalars are modelled as dual
numbers carrying a value and a directional-derivative component.
-/

set_option maxHeartbeats 1000000

/-- Embedding of `discount_rewards(r, gamma)` (actor_critic.py lines 7-13):
the backward loop `running_add = running_add * gamma + r[t]` computes
`G[t] = r[t] + gamma * G[t+1]` with boundary `G[n] = 0`; the recursion below
is that loop read front-to-back, `(discount_rewards xs γ).headD 0` being the
already-computed `G[t+1]` (or the `0` boundary at the end). -/
def discount_rewards {α : Type} [CommRing α] (r : List α) (γ : α) : List α :=
  match r with
  | [] => []
  | x :: xs => (x + γ * (discount_rewards xs γ).headD 0) :: discount_rewards xs γ

/-- Embedding of the loop body of `bootstrapped_discount_rewards`
(actor_critic.py lines 16-25), carrying the loop index `t`.  Each iteration
reads `done[t]` (and `next_values[t]` only on the not-done branch) by index,
exactly as the Python loop does on its tensors; an out-of-range index is an
index error, modelled as `none`.  The Python loop runs from the last index
down, so the recursion threads the tail (larger indices) first. -/
def bdrGo {α : Type} [CommRing α] (γ : α) (done : List Bool) (next_values : List α) :
    Nat → List α → Option (List α)
  | _, [] => some []
  | t, x :: xs => do
    let rest ← bdrGo γ done next_values (t + 1) xs
    let d ← done[t]?
    if d then
      pure ((0 + x) :: rest)
    else do
      let v ← next_values[t]?
      pure ((γ * v + x) :: rest)

/-- Embedding of `bootstrapped_discount_rewards(r, gamma, done, next_values)`
(actor_critic.py lines 16-25): for each `t` from last to first,
`running_add` is `0` if `done[t]`, else `gamma * next_values[t]`, and the
entry is `running_add + r[t]`.  No length check is performed by the source;
failures arise only from out-of-range indexing. -/
def bootstrapped_discount_rewards {α : Type} [CommRing α] (r : List α) (γ : α)
    (done : List Bool) (next_values : List α) : Option (List α) :=
  bdrGo γ done next_values 0 r

/- The remaining embeddings model float tensors by real numbers, so the
definitions below live in a noncomputable section (real square roots and
logarithms have no executable code); the discrete structure still reduces
definitionally, which is what the concrete evaluations use. -/
noncomputable section

/-- Python-level error raised by an attribute lookup that finds no attribute. -/
inductive PyErr where
  | attributeError (name : String)

/-- Embedding of the `Policy` module object (actor_critic.py lines 27-54).
The layer modules (`Linear`, `LSTM`) are trainable function approximators
whose internal weights the spec places out of scope; they are modelled as
abstract functions on vectors.  The fields are exactly the layer attributes
assigned in `__init__`. -/
structure PolicyObj where
  state_space : Nat
  action_space : Nat
  embedding_ac : List ℝ → List ℝ
  fc1_ac : List ℝ → List ℝ
  lstm_ac : List (List ℝ) → List (List ℝ) × List ℝ
  fc2_actor : List ℝ → List ℝ
  fc2_critic : List ℝ → List ℝ
  sigma : List ℝ

/-- Embedding of `torch.nn.ReLU`. -/
def relu (v : List ℝ) : List ℝ := v.map (fun a => max a 0)

/-- Embedding of `F.softplus`, the `sigma_activation` of the policy. -/
def softplus (a : ℝ) : ℝ := Real.log (1 + Real.exp a)

/-- Elementwise sum of a list of vectors (`torch.sum(x, dim=1)` over the
observation dimension of a batch entry). -/
def vsum : List (List ℝ) → List ℝ
  | [] => []
  | [v] => v
  | v :: rest => List.zipWith (fun a b => a + b) v (vsum rest)

/-- Python attribute lookup on a `Policy` object, restricted to the
vector-to-vector layer attributes.  Only the names assigned in `__init__`
resolve; any other name is an `AttributeError` (modelled as `none`).  Note
that `__init__` defines `fc2_critic` and never `fc3_critic`. -/
def PolicyObj.linearAttr (p : PolicyObj) (name : String) : Option (List ℝ → List ℝ) :=
  if name = ("embedding_ac") then some p.embedding_ac
  else if name = ("fc1_ac") then some p.fc1_ac
  else if name = ("fc2_actor") then some p.fc2_actor
  else if name = ("fc2_critic") then some p.fc2_critic
  else none

/-- The `Normal(action_mean, action_sigma)` distribution built in `forward`
(batched mean rows, one shared sigma vector). -/
structure NormalDistB where
  mean : List (List ℝ)
  sigma : List ℝ

/-- Embedding of `Policy.forward` (actor_critic.py lines 64-87).  The input
is a batch of observation sequences; `unsqueeze`/`squeeze` bookkeeping on
singleton dimensions is elided by the list model.  The critic line
`value = self.fc3_critic(...)` performs an attribute lookup for
`fc3_critic`, which `__init__` never assigns, so the lookup fails; had it
succeeded, the trailing `return normal_dist,` (line 87) returns a 1-tuple
holding only the distribution, discarding `value`. -/
def Policy.forward (p : PolicyObj) (x : List (List (List ℝ))) : Except PyErr NormalDistB :=
  let x1 := x.map (fun seq => seq.map p.embedding_ac)
  let x2 := x1.map vsum
  let x3 := x2.map relu
  let x4 := x3.map p.fc1_ac
  let x5 := x4.map relu
  let x6 := (p.lstm_ac x5).1
  let action_mean := x6.map p.fc2_actor
  let action_sigma := p.sigma.map softplus
  let normal_dist : NormalDistB := ⟨action_mean, action_sigma⟩
  match p.linearAttr ("fc3_critic") with
  | some fc3 =>
    let _value := x6.map fc3
    Except.ok normal_dist
  | none => Except.error (PyErr.attributeError ("fc3_critic"))

/-- Autograd scalar: a value together with the directional derivative of the
computation that produced it with respect to an arbitrary fixed direction in
parameter space (forward-mode model of the tape). -/
structure Dual where
  val : ℝ
  grad : ℝ

instance : Add Dual := ⟨fun a b => ⟨a.val + b.val, a.grad + b.grad⟩⟩

instance : Sub Dual := ⟨fun a b => ⟨a.val - b.val, a.grad - b.grad⟩⟩

instance : Mul Dual := ⟨fun a b => ⟨a.val * b.val, a.grad * b.val + a.val * b.grad⟩⟩

instance : Neg Dual := ⟨fun a => ⟨-a.val, -a.grad⟩⟩

/-- A constant tensor (no gradient link), e.g. rewards and their discounted
returns. -/
def Dual.const (c : ℝ) : Dual := ⟨c, 0⟩

/-- Embedding of `.detach()`: same value, cut from the gradient tape. -/
def Dual.detach (d : Dual) : Dual := ⟨d.val, 0⟩

/-- Autograd square root (`d/dx sqrt x = 1 / (2 sqrt x)`). -/
def Dual.sqrt (d : Dual) : Dual := ⟨Real.sqrt d.val, d.grad / (2 * Real.sqrt d.val)⟩

/-- Embedding of `torch.sum` on a vector of autograd scalars. -/
def dsum (l : List Dual) : Dual := l.foldr (fun a b => a + b) (Dual.const 0)

/-- Embedding of `.mean()` on a vector of autograd scalars. -/
def dmean (l : List Dual) : Dual :=
  ⟨(l.map Dual.val).sum / l.length, (l.map Dual.grad).sum / l.length⟩

/-- The `eps` default of `F.pairwise_distance` (1e-6). -/
def pdEps : ℝ := 1 / 1000000

/-- Embedding of `F.pairwise_distance(x1, x2, p=2)` at the shapes occurring
in `update_policy`: `x1 = values.squeeze()` of shape `(N,)` and
`x2 = discounted_returns.unsqueeze(1)` of shape `(N, 1)` with column entries
`x2`.  Broadcasting `x1 - x2 + eps` yields an `N x N` matrix whose row `i`
is `x1 - x2[i] + eps`, and the 2-norm is taken along the last dimension, so
entry `i` of the result is the Euclidean norm of the whole `x1` vector
shifted by `x2[i]` and `eps`. -/
def pairwiseDistance (x1 : List Dual) (x2 : List Dual) (eps : ℝ) : List Dual :=
  x2.map (fun g =>
    Dual.sqrt (dsum (x1.map (fun v =>
      (v - g + Dual.const eps) * (v - g + Dual.const eps)))))

/-- The external-collaborator view of the policy used by `Agent`
(spec section 4.3): `forward` returns an action distribution and one value
estimate per input. -/
structure NormalDistV where
  mean : List ℝ
  sigma : List ℝ

/-- The three loss scalars computed by `update_policy`; the optimizer step
is determined by `total_loss` (value and gradient). -/
structure Losses where
  actor_loss : Dual
  critic_loss : Dual
  total_loss : Dual

/-- Failures of `update_policy`: `torch.stack` on an empty rollout (the
design's EmptyRollout), or a failure raised inside the policy's forward
pass. -/
inductive UpdateErr where
  | emptyRollout
  | policyError (e : PyErr)

/-- Embedding of the `Agent` state (actor_critic.py lines 90-101): the
discount factor and the five per-step buffers.  Stored rewards are the
scalar payloads of the `torch.Tensor([reward])` singletons (stacking and
`squeeze(-1)` cancel the wrapping). -/
structure Agent where
  gamma : ℝ
  states : List (List ℝ)
  next_states : List (List ℝ)
  action_log_probs : List Dual
  rewards : List ℝ
  done : List Bool

/-- The freshly constructed agent (`__init__`): `gamma = 0.99`, empty
buffers. -/
def initAgent : Agent := ⟨99 / 100, [], [], [], [], []⟩

/-- Embedding of `Agent.store_outcome` (actor_critic.py lines 158-163). -/
def store_outcome (a : Agent) (state next_state : List ℝ) (action_log_prob : Dual)
    (reward : ℝ) (d : Bool) : Agent :=
  ⟨a.gamma, a.states ++ [state], a.next_states ++ [next_state],
    a.action_log_probs ++ [action_log_prob], a.rewards ++ [reward], a.done ++ [d]⟩

/-- Embedding of `torch.stack` on a buffer: it raises on an empty tensor
list ("stack expects a non-empty TensorList"), which on an empty rollout is
the design's EmptyRollout failure. -/
def stack {β : Type} (l : List β) : Except UpdateErr (List β) :=
  if l.isEmpty then Except.error UpdateErr.emptyRollout else Except.ok l

/-- The drain step of `update_policy` (actor_critic.py lines 105-108):
stacking the four tensor buffers, in source order, before the buffers are
cleared.  (`done` is converted with `torch.Tensor(self.done)`, which accepts
an empty list and cannot fail.) -/
def drainStacks (a : Agent) :
    Except UpdateErr (List Dual × List (List ℝ) × List (List ℝ) × List ℝ) := do
  let action_log_probs ← stack a.action_log_probs
  let states ← stack a.states
  let next_states ← stack a.next_states
  let rewards ← stack a.rewards
  pure (action_log_probs, states, next_states, rewards)

/-- The buffer-clearing assignment of `update_policy` (line 111). -/
def clearAgent (a : Agent) : Agent := ⟨a.gamma, [], [], [], [], []⟩

/-- The loss computation of `update_policy` (actor_critic.py lines 113-132),
after the buffers have been drained and cleared: discounted returns from the
rewards, two forward passes, advantages `G - values`, actor loss
`-(action_log_probs * advantages.detach()).mean()`, critic loss
`F.pairwise_distance(values.squeeze(), discounted_returns.unsqueeze(1), p=2).mean()`,
total loss their sum.  `next_values` and `done` are computed but unused,
mirroring the source (the bootstrapped target on line 125 is commented out). -/
def computeLosses (policy : List (List ℝ) → Except PyErr (NormalDistV × List Dual))
    (gamma : ℝ) (action_log_probs : List Dual) (states next_states : List (List ℝ))
    (rewards : List ℝ) (done : List Bool) : Except UpdateErr Losses := do
  let discounted_returns := discount_rewards rewards gamma
  let pv ← (policy states).mapError UpdateErr.policyError
  let values := pv.2
  let pnv ← (policy next_states).mapError UpdateErr.policyError
  let next_values := pnv.2
  let advantages := List.zipWith (fun g v => Dual.const g - v) discounted_returns values
  let actor_loss := -(dmean (List.zipWith (fun lp ad => lp * ad) action_log_probs
    (advantages.map Dual.detach)))
  let critic_loss := dmean (pairwiseDistance values
    (discounted_returns.map Dual.const) pdEps)
  let loss := actor_loss + critic_loss
  let _ := next_values
  let _ := done
  pure ⟨actor_loss, critic_loss, loss⟩

/-- Embedding of `Agent.update_policy` (actor_critic.py lines 104-137): the
drain step stacks the four buffers (failing on an empty rollout with the
state untouched); then the buffers are cleared before any computation uses
the drained data, and the losses are computed from the drained rollout.  The
returned pair is the agent state after the call together with the outcome of
the loss computation (whose total loss drives the optimizer step). -/
def updatePolicy (policy : List (List ℝ) → Except PyErr (NormalDistV × List Dual))
    (a : Agent) : Agent × Except UpdateErr Losses :=
  match drainStacks a with
  | Except.error e => (a, Except.error e)
  | Except.ok (action_log_probs, states, next_states, rewards) =>
    (clearAgent a,
      computeLosses policy a.gamma action_log_probs states next_states rewards a.done)

/-- Log-density of `Normal(mu, sigma)` at `x` (one action dimension). -/
def normalLogPdf (μ σ x : ℝ) : ℝ :=
  -Real.log (σ * Real.sqrt (2 * Real.pi)) - (x - μ) ^ 2 / (2 * σ ^ 2)

/-- Embedding of `Agent.get_action` (actor_critic.py lines 140-155) over the
external-collaborator policy interface.  The stochastic branch's draw from
the distribution is modelled by an explicit `sampler` argument standing for
the random source; the evaluation branch returns the distribution's mean and
no log-probability and never consults the sampler. -/
def get_action (policy : List ℝ → NormalDistV × Dual)
    (sampler : NormalDistV → List ℝ) (state : List ℝ) (evaluation : Bool) :
    List ℝ × Option ℝ :=
  let normal_dist := (policy state).1
  if evaluation then (normal_dist.mean, none)
  else
    let action := sampler normal_dist
    let action_log_prob :=
      (List.zipWith (fun ms x => normalLogPdf ms.1 ms.2 x)
        (normal_dist.mean.zip normal_dist.sigma) action).sum
    (action, some action_log_prob)

/-- Spec-side definition, following C4's words: the mean over the N rollout
steps of the per-sample absolute error between predicted value and target
return. -/
def critic_loss_per_sample (values returns : List ℝ) : ℝ :=
  (List.zipWith (fun v g => |v - g|) values returns).sum / values.length

/-- Critic-loss value carried by an `update_policy` outcome (0 on failure). -/
def criticValOf (x : Except UpdateErr Losses) : ℝ :=
  match x with
  | Except.ok L => L.critic_loss.val
  | Except.error _ => 0

/-- A policy collaborator returning fixed value estimates `[3, 4]`. -/
def policyCE : List (List ℝ) → Except PyErr (NormalDistV × List Dual) :=
  fun _ => Except.ok (⟨[0], [1]⟩, [⟨3, 0⟩, ⟨4, 0⟩])

/-- A two-step rollout whose discounted returns are
`[1/1000000, 1/1000000 - 17]`. -/
def agentCE : Agent :=
  ⟨99 / 100, [[1], [1]], [[1], [1]], [⟨0, 0⟩, ⟨0, 0⟩],
    [1 / 100000000 + 1683 / 100, 1 / 1000000 - 17], [false, false]⟩

/-- The concrete policy of the repository always fails in `forward` (see
`Policy.forward`); used as a failing collaborator. -/
def policyFail : List (List ℝ) → Except PyErr (NormalDistV × List Dual) :=
  fun _ => Except.error (PyErr.attributeError ("fc3_critic"))

/-- A one-transition rollout. -/
def agentOne : Agent := ⟨99 / 100, [[1]], [[2]], [⟨0, 1⟩], [1], [true]⟩

/-- Same rollout as `agentOne` except for `done` and `next_states`. -/
def agentOneAlt : Agent := ⟨99 / 100, [[1]], [[3]], [⟨0, 1⟩], [1], [false]⟩

/-- A total policy collaborator returning one value estimate per input. -/
def policyOk : List (List ℝ) → Except PyErr (NormalDistV × List Dual) :=
  fun l => Except.ok (⟨[0], [1]⟩, l.map (fun _ => ⟨1, 1⟩))

/-- Policies with identical value estimates but different gradient links. -/
def policyGradA : List (List ℝ) → Except PyErr (NormalDistV × List Dual) :=
  fun _ => Except.ok (⟨[0], [1]⟩, [⟨2, 5⟩])

/-- Same values as `policyGradA`, different gradient component. -/
def policyGradB : List (List ℝ) → Except PyErr (NormalDistV × List Dual) :=
  fun _ => Except.ok (⟨[0], [1]⟩, [⟨2, 7⟩])

end

theorem option_some_bind {α β : Type} (a : α) (f : α → Option β) :
    Option.bind (some a) f = f a := rfl

theorem option_none_bind {α β : Type} (f : α → Option β) :
    Option.bind (none : Option α) f = none := rfl

theorem bdrGo_nil {α : Type} [CommRing α] (γ : α) (done : List Bool)
    (next_values : List α) (t : Nat) : bdrGo γ done next_values t [] = some [] := rfl

theorem bdrGo_cons {α : Type} [CommRing α] (γ : α) (done : List Bool)
    (next_values : List α) (t : Nat) (x : α) (xs : List α) :
    bdrGo γ done next_values t (x :: xs) =
      (bdrGo γ done next_values (t + 1) xs).bind (fun rest =>
        (done[t]?).bind (fun d =>
          if d then some ((0 + x) :: rest)
          else (next_values[t]?).bind (fun v => some ((γ * v + x) :: rest)))) := rfl

theorem discount_rewards_length {α : Type} [CommRing α] (r : List α) (γ : α) :
    (discount_rewards r γ).length = r.length := by
  induction r with
  | nil => rfl
  | cons x xs ih => simp [discount_rewards, ih]

theorem headD_eq_getD_zero {α : Type} (l : List α) (d : α) : l.headD d = l.getD 0 d := by
  cases l <;> rfl

theorem discount_rewards_getD {α : Type} [CommRing α] (r : List α) (γ : α) :
    ∀ t, t < r.length →
      (discount_rewards r γ).getD t 0 =
        r.getD t 0 + γ * (discount_rewards r γ).getD (t + 1) 0 := by
  induction r with
  | nil => intro t ht; simp at ht
  | cons x xs ih =>
    intro t ht
    cases t with
    | zero =>
      simp only [discount_rewards, List.getD_cons_zero, List.getD_cons_succ]
      rw [headD_eq_getD_zero]
    | succ n =>
      simp only [discount_rewards, List.getD_cons_succ]
      exact ih n (by simpa using ht)

theorem discount_rewards_getLast? {α : Type} [CommRing α] (r : List α) (γ : α)
    (h : r ≠ []) : (discount_rewards r γ).getLast? = r.getLast? := by
  induction r with
  | nil => exact absurd rfl h
  | cons x xs ih =>
    cases xs with
    | nil => simp [discount_rewards]
    | cons y ys =>
      have h2 : discount_rewards (x :: y :: ys) γ =
          (x + γ * (discount_rewards (y :: ys) γ).headD 0) ::
            discount_rewards (y :: ys) γ := rfl
      have h3 : discount_rewards (y :: ys) γ =
          (y + γ * (discount_rewards ys γ).headD 0) :: discount_rewards ys γ := rfl
      rw [h2, h3, List.getLast?_cons_cons, ← h3, ih (by simp),
        List.getLast?_cons_cons]

theorem discount_rewards_gamma_zero {α : Type} [CommRing α] (r : List α) :
    discount_rewards r (0 : α) = r := by
  induction r with
  | nil => rfl
  | cons x xs ih => simp [discount_rewards, ih]

/-- C1: `discount_rewards` returns a sequence of the same length satisfying
`G[t] = r[t] + γ * G[t+1]` with boundary `G[n] = 0` (out-of-range `getD`
yields the boundary `0`); the last entry equals the last reward, and for
`γ = 0` the result is the input unchanged. -/
theorem discount_rewards_spec (r : List ℚ) (γ : ℚ) :
    (discount_rewards r γ).length = r.length ∧
    (∀ t, t < r.length →
      (discount_rewards r γ).getD t 0 =
        r.getD t 0 + γ * (discount_rewards r γ).getD (t + 1) 0) ∧
    (r ≠ [] → (discount_rewards r γ).getLast? = r.getLast?) ∧
    discount_rewards r (0 : ℚ) = r :=
  ⟨discount_rewards_length r γ, discount_rewards_getD r γ,
    discount_rewards_getLast? r γ, discount_rewards_gamma_zero r⟩

/-- Witness for C1 at `r = [1, 2, 3]`, `γ = 1/2`. -/
theorem discount_rewards_spec_witness :
    (0 < ([(1 : ℚ), 2, 3]).length ∧ ([(1 : ℚ), 2, 3] : List ℚ) ≠ []) ∧
    (discount_rewards [(1 : ℚ), 2, 3] (1 / 2)).getD 0 0 =
      ([(1 : ℚ), 2, 3]).getD 0 0 +
        (1 / 2) * (discount_rewards [(1 : ℚ), 2, 3] (1 / 2)).getD 1 0 ∧
    (discount_rewards [(1 : ℚ), 2, 3] (1 / 2)).getLast? = some 3 :=
  ⟨⟨by decide, by decide⟩,
    (discount_rewards_spec [(1 : ℚ), 2, 3] (1 / 2)).2.1 0 (by decide),
    ((discount_rewards_spec [(1 : ℚ), 2, 3] (1 / 2)).2.2.1 (by decide)).trans rfl⟩

theorem bdrGo_ok {α : Type} [CommRing α] (γ : α) (done : List Bool)
    (next_values : List α) :
    ∀ (r : List α) (t : Nat), t + r.length ≤ done.length →
      t + r.length ≤ next_values.length →
      ∃ l, bdrGo γ done next_values t r = some l ∧ l.length = r.length ∧
        ∀ i, i < r.length →
          l.getD i 0 =
            (if done.getD (t + i) false then 0 else γ * next_values.getD (t + i) 0)
              + r.getD i 0 := by
  intro r
  induction r with
  | nil => intro t _ _; exact ⟨[], rfl, rfl, fun i hi => by simp at hi⟩
  | cons x xs ih =>
    intro t hd hn
    simp only [List.length_cons] at hd hn
    obtain ⟨l', hl', hlen', hform'⟩ := ih (t + 1) (by omega) (by omega)
    have htd : t < done.length := by omega
    have htn : t < next_values.length := by omega
    have hdt : done[t]? = some (done.getD t false) := by
      rw [List.getElem?_eq_getElem htd]
      congr 1
      rw [List.getD_eq_getElem?_getD, List.getElem?_eq_getElem htd]
      rfl
    have hnt : next_values[t]? = some (next_values.getD t 0) := by
      rw [List.getElem?_eq_getElem htn]
      congr 1
      rw [List.getD_eq_getElem?_getD, List.getElem?_eq_getElem htn]
      rfl
    cases hdb : done.getD t false with
    | true =>
      refine ⟨(0 + x) :: l', ?_, by simp [hlen'], ?_⟩
      · rw [bdrGo_cons, hl', option_some_bind, hdt, hdb, option_some_bind, if_pos rfl]
      · intro i hi
        cases i with
        | zero =>
          simp only [List.getD_cons_zero, Nat.add_zero, hdb]
          simp
        | succ j =>
          simp only [List.getD_cons_succ]
          have := hform' j (by simpa using hi)
          simpa [Nat.add_assoc, Nat.add_comm 1 j] using this
    | false =>
      refine ⟨(γ * next_values.getD t 0 + x) :: l', ?_, by simp [hlen'], ?_⟩
      · rw [bdrGo_cons, hl', option_some_bind, hdt, hdb, option_some_bind,
          if_neg (by simp), hnt, option_some_bind]
      · intro i hi
        cases i with
        | zero =>
          simp only [List.getD_cons_zero, Nat.add_zero, hdb]
          simp
        | succ j =>
          simp only [List.getD_cons_succ]
          have := hform' j (by simpa using hi)
          simpa [Nat.add_assoc, Nat.add_comm 1 j] using this

theorem bdrGo_none_of_short {α : Type} [CommRing α] (γ : α) (done : List Bool)
    (next_values : List α) :
    ∀ (r : List α) (t : Nat), r ≠ [] → done.length < t + r.length →
      bdrGo γ done next_values t r = none := by
  intro r
  induction r with
  | nil => intro t h _; exact absurd rfl h
  | cons x xs ih =>
    intro t _ hshort
    cases xs with
    | nil =>
      have hle : done.length ≤ t := by
        simp only [List.length_cons, List.length_nil] at hshort; omega
      have hnone : done[t]? = none := List.getElem?_eq_none hle
      rw [bdrGo_cons, bdrGo_nil, option_some_bind, hnone, option_none_bind]
    | cons y ys =>
      have hx : bdrGo γ done next_values (t + 1) (y :: ys) = none :=
        ih (t + 1) (by simp)
          (by simp only [List.length_cons] at hshort ⊢; omega)
      rw [bdrGo_cons, hx, option_none_bind]

/-- C2: for equal-length inputs, `bootstrapped_discount_rewards` succeeds and
is step-local: `result[t] = r[t] + (if done[t] then 0 else γ * next_values[t])`,
with no accumulator chained across steps; on
`rewards = [1,1,1]`, `done = [false,false,true]`, `next_values = [5,5,5]`,
`γ = 9/10` it returns `[11/2, 11/2, 1]`. -/
theorem bootstrapped_discount_rewards_spec (r next_values : List ℚ) (γ : ℚ)
    (done : List Bool) (hd : done.length = r.length)
    (hn : next_values.length = r.length) :
    (∃ l, bootstrapped_discount_rewards r γ done next_values = some l ∧
      l.length = r.length ∧
      ∀ i, i < r.length →
        l.getD i 0 = r.getD i 0 +
          (if done.getD i false then 0 else γ * next_values.getD i 0)) ∧
    bootstrapped_discount_rewards [(1 : ℚ), 1, 1] (9 / 10)
      [false, false, true] [5, 5, 5] = some [11 / 2, 11 / 2, 1] := by
  constructor
  · obtain ⟨l, hl, hlen, hform⟩ := bdrGo_ok γ done next_values r 0
      (by omega) (by omega)
    exact ⟨l, hl, hlen, fun i hi => by
      have := hform i hi
      simpa [add_comm] using this⟩
  · have hrfl : bootstrapped_discount_rewards [(1 : ℚ), 1, 1] (9 / 10)
        [false, false, true] [5, 5, 5] =
        some [9 / 10 * 5 + 1, 9 / 10 * 5 + 1, 0 + 1] := rfl
    rw [hrfl]
    norm_num

/-- Witness for C2 at `r = [1, 2]`, `done = [true, false]`, `nv = [3, 4]`,
`γ = 1/2`. -/
theorem bootstrapped_discount_rewards_spec_witness :
    (([true, false] : List Bool).length = ([(1 : ℚ), 2]).length ∧
      ([(3 : ℚ), 4]).length = ([(1 : ℚ), 2]).length) ∧
    ((∃ l, bootstrapped_discount_rewards [(1 : ℚ), 2] (1 / 2) [true, false]
        [3, 4] = some l ∧
      l.length = ([(1 : ℚ), 2]).length ∧
      ∀ i, i < ([(1 : ℚ), 2]).length →
        l.getD i 0 = ([(1 : ℚ), 2]).getD i 0 +
          (if ([true, false]).getD i false then 0
            else (1 / 2) * ([(3 : ℚ), 4]).getD i 0)) ∧
    bootstrapped_discount_rewards [(1 : ℚ), 1, 1] (9 / 10)
      [false, false, true] [5, 5, 5] = some [11 / 2, 11 / 2, 1]) :=
  ⟨⟨by decide, by decide⟩,
    bootstrapped_discount_rewards_spec [(1 : ℚ), 2] [3, 4] (1 / 2)
      [true, false] (by decide) (by decide)⟩

/-- C9 counterexample: `rewards = [1]` and `done = [false, true]` have
mismatched lengths, yet `bootstrapped_discount_rewards` signals no error and
returns `some [3]` (with `γ = 1`, `next_values = [2]`). -/
theorem bootstrapped_no_shape_check :
    bootstrapped_discount_rewards [(1 : ℚ)] 1 [false, true] [2] = some [3] ∧
    ([false, true] : List Bool).length ≠ ([(1 : ℚ)]).length := by
  constructor
  · have hrfl : bootstrapped_discount_rewards [(1 : ℚ)] 1 [false, true] [2] =
        some [1 * 2 + 1] := rfl
    rw [hrfl]
    norm_num
  · decide

/-- C9 amended: the bootstrapped variant raises no dedicated shape error; it
fails exactly by out-of-range indexing.  Whenever `done` and
`next_value_estimates` are at least as long as `rewards` (in particular for
equal lengths, and also for mismatched-but-longer inputs) it succeeds, and it
fails when `rewards` is nonempty and `done` is shorter than `rewards`. -/
theorem bootstrapped_discount_rewards_errors (r next_values : List ℚ) (γ : ℚ)
    (done : List Bool) :
    (r.length ≤ done.length → r.length ≤ next_values.length →
      ∃ l, bootstrapped_discount_rewards r γ done next_values = some l) ∧
    (r ≠ [] → done.length < r.length →
      bootstrapped_discount_rewards r γ done next_values = none) := by
  constructor
  · intro hd hn
    obtain ⟨l, hl, -⟩ := bdrGo_ok γ done next_values r 0 (by omega) (by omega)
    exact ⟨l, hl⟩
  · intro hne hshort
    exact bdrGo_none_of_short γ done next_values r 0 hne (by omega)

/-- Witness for the amended C9: succeeds on longer `done`, fails on shorter
`done`. -/
theorem bootstrapped_discount_rewards_errors_witness :
    (([(1 : ℚ)]).length ≤ ([false, true] : List Bool).length ∧
      ([(1 : ℚ)]).length ≤ ([(2 : ℚ)]).length ∧
      ([(1 : ℚ), 2]) ≠ [] ∧ ([] : List Bool).length < ([(1 : ℚ), 2]).length) ∧
    (∃ l, bootstrapped_discount_rewards [(1 : ℚ)] 1 [false, true] [2] = some l) ∧
    bootstrapped_discount_rewards [(1 : ℚ), 2] 1 [] [2] = none :=
  ⟨⟨by decide, by decide, by decide, by decide⟩,
    (bootstrapped_discount_rewards_errors [(1 : ℚ)] [2] 1 [false, true]).1
      (by decide) (by decide),
    (bootstrapped_discount_rewards_errors [(1 : ℚ), 2] [2] 1 []).2
      (by decide) (by decide)⟩

theorem except_bind_ok {ε α β : Type} (a : α) (f : α → Except ε β) :
    (Except.ok a >>= f : Except ε β) = f a := rfl

theorem except_bind_error {ε α β : Type} (e : ε) (f : α → Except ε β) :
    ((Except.error e : Except ε α) >>= f) = Except.error e := rfl

theorem except_pure {ε α : Type} (a : α) : (pure a : Except ε α) = Except.ok a := rfl

theorem except_mapError_ok {ε ε' α : Type} (f : ε → ε') (a : α) :
    (Except.ok a : Except ε α).mapError f = Except.ok a := rfl

theorem except_mapError_error {ε ε' α : Type} (f : ε → ε') (e : ε) :
    (Except.error e : Except ε α).mapError f = Except.error (f e) := rfl

@[simp] theorem Dual.add_def (a b : Dual) :
    a + b = ⟨a.val + b.val, a.grad + b.grad⟩ := rfl

@[simp] theorem Dual.sub_def (a b : Dual) :
    a - b = ⟨a.val - b.val, a.grad - b.grad⟩ := rfl

@[simp] theorem Dual.mul_def (a b : Dual) :
    a * b = ⟨a.val * b.val, a.grad * b.val + a.val * b.grad⟩ := rfl

@[simp] theorem Dual.neg_def (a : Dual) : -a = ⟨-a.val, -a.grad⟩ := rfl

theorem dsum_cons (x : Dual) (xs : List Dual) : dsum (x :: xs) = x + dsum xs := rfl

theorem dsum_val (l : List Dual) : (dsum l).val = (l.map Dual.val).sum := by
  induction l with
  | nil => rfl
  | cons x xs ih => simp [dsum_cons, ih]

theorem dmean_val (l : List Dual) :
    (dmean l).val = (l.map Dual.val).sum / (l.length : ℝ) := rfl

theorem criticValOf_ok (L : Losses) : criticValOf (Except.ok L) = L.critic_loss.val := rfl

theorem pairwiseDistance_length (x1 x2 : List Dual) (eps : ℝ) :
    (pairwiseDistance x1 x2 eps).length = x2.length := by
  simp [pairwiseDistance]

theorem pairwiseDistance_map_val (x1 : List Dual) (G : List ℝ) (eps : ℝ) :
    (pairwiseDistance x1 (G.map Dual.const) eps).map Dual.val =
      G.map (fun g => Real.sqrt ((x1.map (fun v => (v.val - g + eps) ^ 2)).sum)) := by
  simp only [pairwiseDistance, List.map_map]
  apply List.map_congr_left
  intro g _
  show Real.sqrt (dsum (x1.map (fun v =>
    (v - Dual.const g + Dual.const eps) * (v - Dual.const g + Dual.const eps)))).val = _
  rw [dsum_val, List.map_map]
  congr 1
  congr 1
  apply List.map_congr_left
  intro v _
  show ((v - Dual.const g + Dual.const eps) * (v - Dual.const g + Dual.const eps)).val = _
  simp only [Dual.sub_def, Dual.add_def, Dual.mul_def, Dual.const]
  rw [pow_two]

theorem stack_ok {β : Type} (l : List β) (h : l ≠ []) : stack l = Except.ok l := by
  cases l with
  | nil => exact absurd rfl h
  | cons x xs => rfl

theorem stack_nil {β : Type} :
    stack ([] : List β) = Except.error UpdateErr.emptyRollout := rfl

theorem drainStacks_ok (a : Agent) (h1 : a.action_log_probs ≠ []) (h2 : a.states ≠ [])
    (h3 : a.next_states ≠ []) (h4 : a.rewards ≠ []) :
    drainStacks a =
      Except.ok (a.action_log_probs, a.states, a.next_states, a.rewards) := by
  simp only [drainStacks, stack_ok _ h1, stack_ok _ h2, stack_ok _ h3, stack_ok _ h4,
    except_bind_ok, except_pure]

theorem drainStacks_empty (a : Agent) (h : a.action_log_probs = []) :
    drainStacks a = Except.error UpdateErr.emptyRollout := by
  simp only [drainStacks, h, stack_nil, except_bind_error]

theorem computeLosses_ok (policy : List (List ℝ) → Except PyErr (NormalDistV × List Dual))
    (gamma : ℝ) (alp : List Dual) (st nst : List (List ℝ)) (rws : List ℝ)
    (dn : List Bool) (pv pnv : NormalDistV × List Dual)
    (hs : policy st = Except.ok pv) (hn : policy nst = Except.ok pnv) :
    computeLosses policy gamma alp st nst rws dn = Except.ok
      ⟨-(dmean (List.zipWith (fun lp ad => lp * ad) alp
          ((List.zipWith (fun g v => Dual.const g - v)
            (discount_rewards rws gamma) pv.2).map Dual.detach))),
        dmean (pairwiseDistance pv.2 ((discount_rewards rws gamma).map Dual.const) pdEps),
        -(dmean (List.zipWith (fun lp ad => lp * ad) alp
          ((List.zipWith (fun g v => Dual.const g - v)
            (discount_rewards rws gamma) pv.2).map Dual.detach))) +
          dmean (pairwiseDistance pv.2 ((discount_rewards rws gamma).map Dual.const) pdEps)⟩ := by
  simp only [computeLosses, hs, hn, except_mapError_ok, except_bind_ok, except_pure]

theorem computeLosses_error_st
    (policy : List (List ℝ) → Except PyErr (NormalDistV × List Dual))
    (gamma : ℝ) (alp : List Dual) (st nst : List (List ℝ)) (rws : List ℝ)
    (dn : List Bool) (e : PyErr) (hs : policy st = Except.error e) :
    computeLosses policy gamma alp st nst rws dn =
      Except.error (UpdateErr.policyError e) := by
  simp only [computeLosses, hs, except_mapError_error, except_bind_error]

theorem updatePolicy_ok (policy : List (List ℝ) → Except PyErr (NormalDistV × List Dual))
    (a : Agent) (h1 : a.action_log_probs ≠ []) (h2 : a.states ≠ [])
    (h3 : a.next_states ≠ []) (h4 : a.rewards ≠ []) :
    updatePolicy policy a = (clearAgent a,
      computeLosses policy a.gamma a.action_log_probs a.states a.next_states
        a.rewards a.done) := by
  unfold updatePolicy
  rw [drainStacks_ok a h1 h2 h3 h4]

/-- C3: `Policy.forward` never produces the specified (distribution, value)
pair: for every policy object and every observation input it fails with
`AttributeError` on `fc3_critic`, since `__init__` assigns `fc2_critic` and
the forward body reads `self.fc3_critic` (and even past that point, the
`return normal_dist,` statement yields a 1-tuple without the value). -/
theorem policy_forward_attribute_error (p : PolicyObj) (x : List (List (List ℝ))) :
    Policy.forward p x = Except.error (PyErr.attributeError ("fc3_critic")) := rfl

theorem detach_const_sub (g : ℝ) (v : Dual) :
    Dual.detach (Dual.const g - v) = Dual.const g - Dual.detach v := by
  simp [Dual.detach, Dual.const]

theorem map_detach_zipWith (G : List ℝ) (vs : List Dual) :
    (List.zipWith (fun g v => Dual.const g - v) G vs).map Dual.detach =
      List.zipWith (fun g v => Dual.const g - Dual.detach v) G vs := by
  rw [List.map_zipWith]
  have hf : (fun (g : ℝ) (v : Dual) => Dual.detach (Dual.const g - v)) =
      (fun g v => Dual.const g - Dual.detach v) := by
    funext g v
    exact detach_const_sub g v
  rw [hf]

theorem zipWith_detach_congr (G : List ℝ) :
    ∀ (v₁ v₂ : List Dual), v₁.map Dual.val = v₂.map Dual.val →
      List.zipWith (fun g v => Dual.const g - Dual.detach v) G v₁ =
        List.zipWith (fun g v => Dual.const g - Dual.detach v) G v₂ := by
  induction G with
  | nil => intro v₁ v₂ _; simp
  | cons g gs ih =>
    intro v₁ v₂ h
    cases v₁ with
    | nil =>
      cases v₂ with
      | nil => rfl
      | cons b bs => simp at h
    | cons a as =>
      cases v₂ with
      | nil => simp at h
      | cons b bs =>
        simp only [List.map_cons, List.cons.injEq] at h
        simp only [List.zipWith_cons_cons]
        rw [show Dual.detach a = Dual.detach b from by simp [Dual.detach, h.1],
          ih as bs h.2]

/-- C5: in `update_policy`, the advantages are `G - values` elementwise and
the actor loss is the negated mean of `action_log_probs` times the detached
advantages; since the returns `G` carry no gradient, detaching the advantage
equals subtracting the detached values, so the actor loss is
`-(mean(action_log_probs * (G - values.detach())))` and does not depend on
the gradient links of the critic's value estimates: two policies producing
the same value estimates with different gradient links give identical actor
losses. -/
theorem actor_loss_uses_detached_values
    (policy₁ policy₂ : List (List ℝ) → Except PyErr (NormalDistV × List Dual))
    (a : Agent) (h1 : a.action_log_probs ≠ []) (h2 : a.states ≠ [])
    (h3 : a.next_states ≠ []) (h4 : a.rewards ≠ [])
    (pv₁ pv₂ pnv₁ pnv₂ : NormalDistV × List Dual)
    (hs₁ : policy₁ a.states = Except.ok pv₁) (hs₂ : policy₂ a.states = Except.ok pv₂)
    (hvals : pv₁.2.map Dual.val = pv₂.2.map Dual.val)
    (hn₁ : policy₁ a.next_states = Except.ok pnv₁)
    (hn₂ : policy₂ a.next_states = Except.ok pnv₂) :
    ∃ L₁ L₂, (updatePolicy policy₁ a).2 = Except.ok L₁ ∧
      (updatePolicy policy₂ a).2 = Except.ok L₂ ∧
      L₁.actor_loss = -(dmean (List.zipWith (fun lp ad => lp * ad) a.action_log_probs
        (List.zipWith (fun g v => Dual.const g - Dual.detach v)
          (discount_rewards a.rewards a.gamma) pv₁.2))) ∧
      L₁.actor_loss = L₂.actor_loss := by
  rw [updatePolicy_ok policy₁ a h1 h2 h3 h4, updatePolicy_ok policy₂ a h1 h2 h3 h4]
  rw [show (clearAgent a,
      computeLosses policy₁ a.gamma a.action_log_probs a.states a.next_states
        a.rewards a.done).2 =
      computeLosses policy₁ a.gamma a.action_log_probs a.states a.next_states
        a.rewards a.done from rfl]
  rw [show (clearAgent a,
      computeLosses policy₂ a.gamma a.action_log_probs a.states a.next_states
        a.rewards a.done).2 =
      computeLosses policy₂ a.gamma a.action_log_probs a.states a.next_states
        a.rewards a.done from rfl]
  rw [computeLosses_ok policy₁ a.gamma a.action_log_probs a.states a.next_states
      a.rewards a.done pv₁ pnv₁ hs₁ hn₁,
    computeLosses_ok policy₂ a.gamma a.action_log_probs a.states a.next_states
      a.rewards a.done pv₂ pnv₂ hs₂ hn₂]
  refine ⟨_, _, rfl, rfl, ?_, ?_⟩
  · dsimp only
    rw [map_detach_zipWith]
  · dsimp only
    rw [map_detach_zipWith, map_detach_zipWith,
      zipWith_detach_congr (discount_rewards a.rewards a.gamma) pv₁.2 pv₂.2 hvals]

/-- Witness for C5 with two collaborator policies whose value estimates
agree (value 2) but whose gradient links differ (5 versus 7). -/
theorem actor_loss_uses_detached_values_witness :
    (agentOne.action_log_probs ≠ [] ∧ agentOne.states ≠ [] ∧
      agentOne.next_states ≠ [] ∧ agentOne.rewards ≠ [] ∧
      policyGradA agentOne.states =
        Except.ok (⟨[0], [1]⟩, [⟨2, 5⟩]) ∧
      policyGradB agentOne.states =
        Except.ok (⟨[0], [1]⟩, [⟨2, 7⟩]) ∧
      ([⟨(2 : ℝ), 5⟩] : List Dual).map Dual.val =
        ([⟨(2 : ℝ), 7⟩] : List Dual).map Dual.val) ∧
    (∃ L₁ L₂, (updatePolicy policyGradA agentOne).2 = Except.ok L₁ ∧
      (updatePolicy policyGradB agentOne).2 = Except.ok L₂ ∧
      L₁.actor_loss = -(dmean (List.zipWith (fun lp ad => lp * ad)
        agentOne.action_log_probs
        (List.zipWith (fun g v => Dual.const g - Dual.detach v)
          (discount_rewards agentOne.rewards agentOne.gamma)
          ((⟨[0], [1]⟩, [⟨2, 5⟩]) : NormalDistV × List Dual).2))) ∧
      L₁.actor_loss = L₂.actor_loss) :=
  ⟨⟨by simp [agentOne], by simp [agentOne], by simp [agentOne], by simp [agentOne],
      rfl, rfl, rfl⟩,
    actor_loss_uses_detached_values policyGradA policyGradB agentOne
      (by simp [agentOne]) (by simp [agentOne]) (by simp [agentOne])
      (by simp [agentOne]) (⟨[0], [1]⟩, [⟨2, 5⟩]) (⟨[0], [1]⟩, [⟨2, 7⟩])
      (⟨[0], [1]⟩, [⟨2, 5⟩]) (⟨[0], [1]⟩, [⟨2, 7⟩]) rfl rfl rfl rfl rfl⟩

/-- C6: `update_policy` uses the plain discounted returns as the update
target; for two buffered rollouts agreeing on gamma, states,
action_log_probs and rewards but differing in done flags or next_states
(hence in next_values), the whole `update_policy` outcome — cleared state
and all three losses, value and gradient, hence the parameter update driven
by the total loss — is identical. -/
theorem update_policy_ignores_done_and_next_values
    (policy : List (List ℝ) → Except PyErr (NormalDistV × List Dual))
    (a₁ a₂ : Agent) (hγ : a₁.gamma = a₂.gamma) (hst : a₁.states = a₂.states)
    (halp : a₁.action_log_probs = a₂.action_log_probs)
    (hrw : a₁.rewards = a₂.rewards)
    (h1 : a₁.action_log_probs ≠ []) (h2 : a₁.states ≠ [])
    (h3 : a₁.next_states ≠ []) (h4 : a₁.rewards ≠ [])
    (h3b : a₂.next_states ≠ [])
    (hn1 : ∃ pnv, policy a₁.next_states = Except.ok pnv)
    (hn2 : ∃ pnv, policy a₂.next_states = Except.ok pnv) :
    updatePolicy policy a₁ = updatePolicy policy a₂ := by
  obtain ⟨pnv₁, hpn1⟩ := hn1
  obtain ⟨pnv₂, hpn2⟩ := hn2
  have h1b : a₂.action_log_probs ≠ [] := halp ▸ h1
  have h2b : a₂.states ≠ [] := hst ▸ h2
  have h4b : a₂.rewards ≠ [] := hrw ▸ h4
  rw [updatePolicy_ok policy a₁ h1 h2 h3 h4, updatePolicy_ok policy a₂ h1b h2b h3b h4b]
  have hca : clearAgent a₁ = clearAgent a₂ := by simp [clearAgent, hγ]
  have hcl : computeLosses policy a₁.gamma a₁.action_log_probs a₁.states
      a₁.next_states a₁.rewards a₁.done =
      computeLosses policy a₂.gamma a₂.action_log_probs a₂.states
        a₂.next_states a₂.rewards a₂.done := by
    rw [hγ, hst, halp, hrw]
    cases hps : policy a₂.states with
    | error e =>
      rw [computeLosses_error_st policy a₂.gamma a₂.action_log_probs a₂.states
          a₁.next_states a₂.rewards a₁.done e hps,
        computeLosses_error_st policy a₂.gamma a₂.action_log_probs a₂.states
          a₂.next_states a₂.rewards a₂.done e hps]
    | ok pv =>
      rw [computeLosses_ok policy a₂.gamma a₂.action_log_probs a₂.states
          a₁.next_states a₂.rewards a₁.done pv pnv₁ hps hpn1,
        computeLosses_ok policy a₂.gamma a₂.action_log_probs a₂.states
          a₂.next_states a₂.rewards a₂.done pv pnv₂ hps hpn2]
  rw [hca, hcl]

/-- Witness for C6: two one-step rollouts differing exactly in `done` and
`next_states` produce identical `update_policy` outcomes. -/
theorem update_policy_ignores_done_and_next_values_witness :
    (agentOne.gamma = agentOneAlt.gamma ∧ agentOne.states = agentOneAlt.states ∧
      agentOne.action_log_probs = agentOneAlt.action_log_probs ∧
      agentOne.rewards = agentOneAlt.rewards ∧
      agentOne.done ≠ agentOneAlt.done ∧
      agentOne.next_states ≠ agentOneAlt.next_states ∧
      agentOne.action_log_probs ≠ [] ∧ agentOne.states ≠ [] ∧
      agentOne.next_states ≠ [] ∧ agentOne.rewards ≠ [] ∧
      agentOneAlt.next_states ≠ []) ∧
    updatePolicy policyOk agentOne = updatePolicy policyOk agentOneAlt :=
  ⟨⟨rfl, rfl, rfl, rfl, by simp [agentOne, agentOneAlt],
      by norm_num [agentOne, agentOneAlt], by simp [agentOne], by simp [agentOne],
      by simp [agentOne], by simp [agentOne], by simp [agentOneAlt]⟩,
    update_policy_ignores_done_and_next_values policyOk agentOne agentOneAlt
      rfl rfl rfl rfl (by simp [agentOne]) (by simp [agentOne]) (by simp [agentOne])
      (by simp [agentOne]) (by simp [agentOneAlt])
      ⟨(⟨[0], [1]⟩, agentOne.next_states.map (fun _ => ⟨1, 1⟩)), rfl⟩
      ⟨(⟨[0], [1]⟩, agentOneAlt.next_states.map (fun _ => ⟨1, 1⟩)), rfl⟩⟩

/-- C7: `update_policy` clears all five buffer sequences right after the
drain step and before any computation uses the drained data; consequently,
for every rollout that passes the drain (all stacked buffers nonempty), the
resulting agent state has empty buffers regardless of whether the later
steps (the policy forward passes in particular) succeed or fail. -/
theorem update_policy_clears_buffers
    (policy : List (List ℝ) → Except PyErr (NormalDistV × List Dual)) (a : Agent)
    (h1 : a.action_log_probs ≠ []) (h2 : a.states ≠ [])
    (h3 : a.next_states ≠ []) (h4 : a.rewards ≠ []) :
    (updatePolicy policy a).1.states = [] ∧
    (updatePolicy policy a).1.next_states = [] ∧
    (updatePolicy policy a).1.action_log_probs = [] ∧
    (updatePolicy policy a).1.rewards = [] ∧
    (updatePolicy policy a).1.done = [] := by
  rw [updatePolicy_ok policy a h1 h2 h3 h4]
  exact ⟨rfl, rfl, rfl, rfl, rfl⟩

/-- Witness for C7, using the repository's own always-failing forward pass
as the collaborator: the buffers are cleared even though the step after the
drain fails. -/
theorem update_policy_clears_buffers_witness :
    (agentOne.action_log_probs ≠ [] ∧ agentOne.states ≠ [] ∧
      agentOne.next_states ≠ [] ∧ agentOne.rewards ≠ []) ∧
    ((updatePolicy policyFail agentOne).1.states = [] ∧
      (updatePolicy policyFail agentOne).1.next_states = [] ∧
      (updatePolicy policyFail agentOne).1.action_log_probs = [] ∧
      (updatePolicy policyFail agentOne).1.rewards = [] ∧
      (updatePolicy policyFail agentOne).1.done = []) :=
  ⟨⟨by simp [agentOne], by simp [agentOne], by simp [agentOne], by simp [agentOne]⟩,
    update_policy_clears_buffers policyFail agentOne (by simp [agentOne])
      (by simp [agentOne]) (by simp [agentOne]) (by simp [agentOne])⟩

/-- C8: invoking `update_policy` with zero buffered transitions fails fast
at the first stack (the EmptyRollout failure of the design) before any loss
is computed, returning the error to the caller with the agent state — and
hence the already-empty buffer — unchanged, so the caller can recover and
continue collecting. -/
theorem update_policy_empty_rollout
    (policy : List (List ℝ) → Except PyErr (NormalDistV × List Dual)) (a : Agent)
    (h1 : a.states = []) (h2 : a.next_states = []) (h3 : a.action_log_probs = [])
    (h4 : a.rewards = []) (h5 : a.done = []) :
    updatePolicy policy a = (a, Except.error UpdateErr.emptyRollout) := by
  unfold updatePolicy
  rw [drainStacks_empty a h3]

/-- Witness for C8 at the freshly constructed agent. -/
theorem update_policy_empty_rollout_witness :
    (initAgent.states = [] ∧ initAgent.next_states = [] ∧
      initAgent.action_log_probs = [] ∧ initAgent.rewards = [] ∧
      initAgent.done = []) ∧
    updatePolicy policyFail initAgent =
      (initAgent, Except.error UpdateErr.emptyRollout) :=
  ⟨⟨rfl, rfl, rfl, rfl, rfl⟩,
    update_policy_empty_rollout policyFail initAgent rfl rfl rfl rfl rfl⟩

/-- C10: `get_action` with `evaluation = true` returns the distribution's
mean and no log-probability, and is deterministic: it never consults the
random source, so any two samplers (and hence repeated calls with identical
policy parameters and the same state) produce the same action. -/
theorem get_action_evaluation_deterministic (policy : List ℝ → NormalDistV × Dual)
    (sampler₁ sampler₂ : NormalDistV → List ℝ) (state : List ℝ) :
    get_action policy sampler₁ state true = ((policy state).1.mean, none) ∧
    get_action policy sampler₁ state true = get_action policy sampler₂ state true :=
  ⟨rfl, rfl⟩

/-- C4 amended: the critic loss computed by `update_policy` is the mean over
the N return targets `G[i]` of the Euclidean norm of the whole values vector
shifted by `G[i]` and the `eps = 1e-6` of `F.pairwise_distance` — the
`(N,)`-versus-`(N,1)` shapes broadcast each target against the entire values
vector, not a per-sample pairing. -/
theorem critic_loss_broadcast
    (policy : List (List ℝ) → Except PyErr (NormalDistV × List Dual))
    (a : Agent) (h1 : a.action_log_probs ≠ []) (h2 : a.states ≠ [])
    (h3 : a.next_states ≠ []) (h4 : a.rewards ≠ [])
    (pv pnv : NormalDistV × List Dual)
    (hs : policy a.states = Except.ok pv) (hn : policy a.next_states = Except.ok pnv) :
    ∃ L, (updatePolicy policy a).2 = Except.ok L ∧
      L.critic_loss.val =
        ((discount_rewards a.rewards a.gamma).map (fun g =>
          Real.sqrt ((pv.2.map (fun v => (v.val - g + pdEps) ^ 2)).sum))).sum /
          (a.rewards.length : ℝ) := by
  rw [updatePolicy_ok policy a h1 h2 h3 h4]
  rw [show (clearAgent a,
      computeLosses policy a.gamma a.action_log_probs a.states a.next_states
        a.rewards a.done).2 =
      computeLosses policy a.gamma a.action_log_probs a.states a.next_states
        a.rewards a.done from rfl]
  rw [computeLosses_ok policy a.gamma a.action_log_probs a.states a.next_states
      a.rewards a.done pv pnv hs hn]
  refine ⟨_, rfl, ?_⟩
  dsimp only
  rw [dmean_val, pairwiseDistance_map_val, pairwiseDistance_length,
    List.length_map, discount_rewards_length]

/-- Witness for the amended C4 at the concrete two-step rollout. -/
theorem critic_loss_broadcast_witness :
    (agentCE.action_log_probs ≠ [] ∧ agentCE.states ≠ [] ∧
      agentCE.next_states ≠ [] ∧ agentCE.rewards ≠ [] ∧
      policyCE agentCE.states = Except.ok (⟨[0], [1]⟩, [⟨3, 0⟩, ⟨4, 0⟩]) ∧
      policyCE agentCE.next_states = Except.ok (⟨[0], [1]⟩, [⟨3, 0⟩, ⟨4, 0⟩])) ∧
    (∃ L, (updatePolicy policyCE agentCE).2 = Except.ok L ∧
      L.critic_loss.val =
        ((discount_rewards agentCE.rewards agentCE.gamma).map (fun g =>
          Real.sqrt (((((⟨[0], [1]⟩, [⟨3, 0⟩, ⟨4, 0⟩]) : NormalDistV × List Dual).2).map
            (fun v => (v.val - g + pdEps) ^ 2)).sum))).sum /
          (agentCE.rewards.length : ℝ)) :=
  ⟨⟨by simp [agentCE], by simp [agentCE], by simp [agentCE], by simp [agentCE],
      rfl, rfl⟩,
    critic_loss_broadcast policyCE agentCE (by simp [agentCE]) (by simp [agentCE])
      (by simp [agentCE]) (by simp [agentCE]) (⟨[0], [1]⟩, [⟨3, 0⟩, ⟨4, 0⟩])
      (⟨[0], [1]⟩, [⟨3, 0⟩, ⟨4, 0⟩]) rfl rfl⟩

/-- C4 counterexample: on a two-step rollout with value estimates `[3, 4]`
and discounted returns `[1e-6, 1e-6 - 17]`, the critic loss computed by
`update_policy` equals `(sqrt 25 + sqrt 841) / 2 = 17`, while the mean of
the per-sample absolute errors claimed by the spec is `12 - 1e-6`; the two
reductions disagree. -/
theorem critic_loss_not_per_sample :
    criticValOf (updatePolicy policyCE agentCE).2 = 17 ∧
    critic_loss_per_sample [3, 4]
      (discount_rewards agentCE.rewards agentCE.gamma) = 12 - 1 / 1000000 ∧
    criticValOf (updatePolicy policyCE agentCE).2 ≠
      critic_loss_per_sample [3, 4]
        (discount_rewards agentCE.rewards agentCE.gamma) := by
  have hG : discount_rewards agentCE.rewards agentCE.gamma =
      [(1 : ℝ) / 1000000, 1 / 1000000 - 17] := by
    have h0 : discount_rewards agentCE.rewards agentCE.gamma =
        [((1 : ℝ) / 100000000 + 1683 / 100) + 99 / 100 * ((1 / 1000000 - 17) + 99 / 100 * 0),
          (1 / 1000000 - 17) + 99 / 100 * 0] := rfl
    rw [h0]
    norm_num
  have hcv : criticValOf (updatePolicy policyCE agentCE).2 = 17 := by
    rw [updatePolicy_ok policyCE agentCE (by simp [agentCE]) (by simp [agentCE])
        (by simp [agentCE]) (by simp [agentCE])]
    rw [show (clearAgent agentCE,
        computeLosses policyCE agentCE.gamma agentCE.action_log_probs agentCE.states
          agentCE.next_states agentCE.rewards agentCE.done).2 =
        computeLosses policyCE agentCE.gamma agentCE.action_log_probs agentCE.states
          agentCE.next_states agentCE.rewards agentCE.done from rfl]
    rw [computeLosses_ok policyCE agentCE.gamma agentCE.action_log_probs
        agentCE.states agentCE.next_states agentCE.rewards agentCE.done
        (⟨[0], [1]⟩, [⟨3, 0⟩, ⟨4, 0⟩]) (⟨[0], [1]⟩, [⟨3, 0⟩, ⟨4, 0⟩]) rfl rfl]
    rw [criticValOf_ok]
    dsimp only
    rw [dmean_val, pairwiseDistance_map_val, pairwiseDistance_length,
      List.length_map, discount_rewards_length, hG]
    simp only [List.map_cons, List.map_nil, List.sum_cons, List.sum_nil]
    have e1 : Real.sqrt ((Dual.val ⟨3, 0⟩ - 1 / 1000000 + pdEps) ^ 2 +
        ((Dual.val ⟨4, 0⟩ - 1 / 1000000 + pdEps) ^ 2 + 0)) = 5 := by
      rw [show (Dual.val ⟨3, 0⟩ - 1 / 1000000 + pdEps) ^ 2 +
          ((Dual.val ⟨4, 0⟩ - 1 / 1000000 + pdEps) ^ 2 + 0) = (5 : ℝ) ^ 2 by
        norm_num [pdEps]]
      exact Real.sqrt_sq (by norm_num)
    have e2 : Real.sqrt ((Dual.val ⟨3, 0⟩ - (1 / 1000000 - 17) + pdEps) ^ 2 +
        ((Dual.val ⟨4, 0⟩ - (1 / 1000000 - 17) + pdEps) ^ 2 + 0)) = 29 := by
      rw [show (Dual.val ⟨3, 0⟩ - (1 / 1000000 - 17) + pdEps) ^ 2 +
          ((Dual.val ⟨4, 0⟩ - (1 / 1000000 - 17) + pdEps) ^ 2 + 0) = (29 : ℝ) ^ 2 by
        norm_num [pdEps]]
      exact Real.sqrt_sq (by norm_num)
    rw [e1, e2]
    norm_num [agentCE]
  have hps : critic_loss_per_sample [3, 4]
      (discount_rewards agentCE.rewards agentCE.gamma) = 12 - 1 / 1000000 := by
    rw [hG]
    simp only [critic_loss_per_sample, List.zipWith_cons_cons, List.zipWith_nil_left,
      List.zipWith_nil_right, List.sum_cons, List.sum_nil, List.length_cons,
      List.length_nil]
    rw [abs_of_nonneg (by norm_num), abs_of_nonneg (by norm_num)]
    norm_num
  exact ⟨hcv, hps, by rw [hcv, hps]; norm_num⟩
